import Mathlib

/-!
Verification of the construct-library sources: step scaling actions
(application auto scaling), CloudWatch alarms, SNS topics and
subscriptions, Step Functions publish tasks, and the policy-statement
merge step of the pipeline-actions path.  Types and operations are
shallow embeddings of the TypeScript sources; stateful methods become
explicit state-passing functions, fallible methods return `Except`.
-/

namespace AwsCdk

/-! ### Tokens

Modelled from the spec: the cdk core `Token` class is not among the
source files; the spec describes it as a lazily-resolved placeholder
wrapping either a constant or a zero-argument producer, resolved on
demand during synthesis.  A producer closes over the mutable state of
its construct, so we embed it as a function of that state. -/

/-- Modelled from the spec: a `Token` wraps either a constant or a
producer reading the owning construct state `σ`. -/
inductive Token (σ α : Type) where
  | constant : α → Token σ α
  | lazy : (σ → α) → Token σ α

/-- Modelled from the spec: `resolve` returns the constant, or invokes
the producer on the current state. -/
def Token.resolve {σ α : Type} : Token σ α → σ → α
  | .constant v, _ => v
  | .lazy p, s => p s

/-! ### StepScalingAction (application auto scaling)

Embedding of `StepScalingAction` from the auto-scaling source file:
the construct owns a mutable `adjustments` array, registers a Token
whose producer reads it, and `addAdjustment` validates the tier and
pushes onto the array. -/

/-- Embedding of `AdjustmentTier`: an adjustment with optional lower and upper bound. -/
structure AdjustmentTier where
  adjustment : Int
  lowerBound : Option Int := none
  upperBound : Option Int := none
deriving DecidableEq, Repr

/-- Embedding of `CfnScalingPolicy.StepAdjustmentProperty`: the record pushed onto the
captured `adjustments` array. -/
structure StepAdjustmentProperty where
  metricIntervalLowerBound : Option Int
  metricIntervalUpperBound : Option Int
  scalingAdjustment : Int
deriving DecidableEq, Repr

/-- The mutable state of a `StepScalingAction`: its captured
`adjustments` collection. -/
structure StepScalingActionState where
  adjustments : List StepAdjustmentProperty
deriving DecidableEq, Repr

/-- A fresh `StepScalingAction` starts with an empty adjustments array. -/
def StepScalingActionState.init : StepScalingActionState :=
  { adjustments := [] }

/-- Embedding of `StepScalingAction.addAdjustment`: throws when both bounds are
undefined, otherwise pushes the converted tier onto the array. -/
def addAdjustment (s : StepScalingActionState) (adjustment : AdjustmentTier) :
    Except String StepScalingActionState :=
  if adjustment.lowerBound = none ∧ adjustment.upperBound = none then
    .error "At least one of lowerBound or upperBound is required"
  else
    .ok { s with adjustments := s.adjustments ++
      [{ metricIntervalLowerBound := adjustment.lowerBound
         metricIntervalUpperBound := adjustment.upperBound
         scalingAdjustment := adjustment.adjustment }] }

/-- Conversion of a tier to the pushed record, for stating call-order
facts about repeated `addAdjustment` calls. -/
def tierToStep (t : AdjustmentTier) : StepAdjustmentProperty :=
  { metricIntervalLowerBound := t.lowerBound
    metricIntervalUpperBound := t.upperBound
    scalingAdjustment := t.adjustment }

/-- Folding `addAdjustment` over a call sequence. -/
def addAdjustments (s : StepScalingActionState) :
    List AdjustmentTier → Except String StepScalingActionState
  | [] => .ok s
  | t :: ts => do
    let s1 ← addAdjustment s t
    addAdjustments s1 ts

/-- The `stepAdjustments` Token registered at construction: its producer
reads the captured `adjustments` collection. -/
def stepAdjustmentsToken : Token StepScalingActionState (List StepAdjustmentProperty) :=
  .lazy (fun s => s.adjustments)

/-- The resolved step-adjustment sequence of a scaling action state. -/
def resolveStepAdjustments (s : StepScalingActionState) : List StepAdjustmentProperty :=
  stepAdjustmentsToken.resolve s

/-! ### Alarm (CloudWatch)

Embedding of the `Alarm` class from the cloudwatch source file: the
three action-ARN arrays are `Option` fields starting absent
(`undefined`), each add method lazily initializes its array on first
call and pushes one bound ARN per supplied action, and the constructor
registers a Token per array whose producer reads it. -/

/-- The alarm handle passed to `bind`: its identifying attributes. -/
structure AlarmRef where
  alarmArn : String
  alarmName : String
deriving DecidableEq, Repr

/-- The configuration returned by an alarm action binding. -/
structure AlarmActionConfig where
  alarmActionArn : String
deriving DecidableEq, Repr

/-- Embedding of `IAlarmAction`: an action exposing `bind(scope, alarm)`; in the
source both arguments are the alarm itself. -/
structure IAlarmAction where
  bind : AlarmRef → AlarmRef → AlarmActionConfig

/-- The mutable state of an `Alarm`: the three action-ARN arrays, each
starting `undefined` (here `none`). -/
structure AlarmState where
  ref : AlarmRef
  alarmActionArns : Option (List String)
  insufficientDataActionArns : Option (List String)
  okActionArns : Option (List String)

/-- The `Alarm` constructor leaves all three action arrays undefined. -/
def Alarm.construct (ref : AlarmRef) : AlarmState :=
  { ref := ref
    alarmActionArns := none
    insufficientDataActionArns := none
    okActionArns := none }

/-- Embedding of `Alarm.addAlarmAction`: initializes the array to `[]` when it is
still undefined, then pushes `a.bind(this, this).alarmActionArn` for
each supplied action. -/
def addAlarmAction (s : AlarmState) (actions : List IAlarmAction) : AlarmState :=
  let current := s.alarmActionArns.getD []
  { s with
    alarmActionArns := some (current ++ actions.map (fun a => (a.bind s.ref s.ref).alarmActionArn)) }

/-- Embedding of `Alarm.addInsufficientDataAction`: same shape on the
insufficient-data array. -/
def addInsufficientDataAction (s : AlarmState) (actions : List IAlarmAction) : AlarmState :=
  let current := s.insufficientDataActionArns.getD []
  { s with
    insufficientDataActionArns :=
      some (current ++ actions.map (fun a => (a.bind s.ref s.ref).alarmActionArn)) }

/-- Embedding of `Alarm.addOkAction`: same shape on the ok array. -/
def addOkAction (s : AlarmState) (actions : List IAlarmAction) : AlarmState :=
  let current := s.okActionArns.getD []
  { s with
    okActionArns := some (current ++ actions.map (fun a => (a.bind s.ref s.ref).alarmActionArn)) }

/-- The `alarmActions` Token registered by the constructor: its producer
reads `this.alarmActionArns`; a `none` result is an omitted field. -/
def alarmActionsToken : Token AlarmState (Option (List String)) :=
  .lazy (fun s => s.alarmActionArns)

/-- The `insufficientDataActions` Token registered by the constructor. -/
def insufficientDataActionsToken : Token AlarmState (Option (List String)) :=
  .lazy (fun s => s.insufficientDataActionArns)

/-- The `okActions` Token registered by the constructor. -/
def okActionsToken : Token AlarmState (Option (List String)) :=
  .lazy (fun s => s.okActionArns)

/-- The resolved alarm-actions field: `none` means the field is omitted
from the synthesized resource. -/
def resolveAlarmActions (s : AlarmState) : Option (List String) :=
  alarmActionsToken.resolve s

/-! ### IAM policy statements

The aws-iam `PolicyStatement` builder is external to the source files;
the sources use it as an opaque structured value built by chained
append-style calls (`addAction`, `addResource`, `addServicePrincipal`,
`setCondition`), which we embed as record updates. -/

/-- A policy statement as built by the chained calls in the sources. -/
structure PolicyStatement where
  effect : String := "Allow"
  actions : List String := []
  resources : List String := []
  principals : List String := []
  conditions : List (String × String × String) := []
deriving DecidableEq, Repr

/-- Chained builder call appending an action. -/
def PolicyStatement.addAction (s : PolicyStatement) (a : String) : PolicyStatement :=
  { s with actions := s.actions ++ [a] }

/-- Chained builder call appending a resource. -/
def PolicyStatement.addResource (s : PolicyStatement) (r : String) : PolicyStatement :=
  { s with resources := s.resources ++ [r] }

/-- Chained builder call appending a service principal. -/
def PolicyStatement.addServicePrincipal (s : PolicyStatement) (p : String) : PolicyStatement :=
  { s with principals := s.principals ++ [p] }

/-- Chained builder call recording a condition as operator, key, value. -/
def PolicyStatement.setCondition (s : PolicyStatement) (op key value : String) : PolicyStatement :=
  { s with conditions := s.conditions ++ [(op, key, value)] }

/-! ### TopicBase (SNS)

Embedding of `TopicBase` from `topic-base.ts`: the abstract
`autoCreatePolicy` flag is set by subclasses (`true` for a live
`Topic`, `false` for an imported one), `policy` starts undefined, and
`addToResourcePolicy` creates the policy resource lazily only when
`autoCreatePolicy` holds. -/

/-- The state of a `TopicBase`: its identifying attributes, the
subclass-set `autoCreatePolicy` flag, and the optional `TopicPolicy`
sub-resource represented by its statement document. -/
structure TopicBaseState where
  topicArn : String
  topicName : String
  nodeId : String
  autoCreatePolicy : Bool
  policy : Option (List PolicyStatement)
deriving DecidableEq, Repr

/-- Embedding of `TopicBase.addToResourcePolicy`: creates the policy
resource on first call when `autoCreatePolicy` is set, then appends the
statement to its document when a policy exists; otherwise does nothing. -/
def addToResourcePolicy (s : TopicBaseState) (statement : PolicyStatement) : TopicBaseState :=
  let s1 := if s.policy = none ∧ s.autoCreatePolicy then { s with policy := some [] } else s
  match s1.policy with
  | some doc => { s1 with policy := some (doc ++ [statement]) }
  | none => s1

/-- The policy sub-resources a topic contributes to the synthesized
tree: one `TopicPolicy` when `policy` is defined, none otherwise. -/
def topicPolicyResources (s : TopicBaseState) : List (List PolicyStatement) :=
  s.policy.toList

/-! ### Subscriptions -/

/-- The subscription protocols used by the `subscribe*` methods. -/
inductive SubscriptionProtocol where
  | http
  | https
  | email
  | emailJson
  | sqs
  | lambda
deriving DecidableEq, Repr

/-- A `Subscription` construct: its construct id and its properties as
passed by the `subscribe*` methods. -/
structure Subscription where
  name : String
  topicArn : String
  endpoint : String
  protocol : SubscriptionProtocol
  rawMessageDelivery : Option Bool
deriving DecidableEq, Repr

/-- Embedding of `TopicBase.subscribe`: creates a subscription with the
given name, endpoint and protocol. -/
def subscribe (t : TopicBaseState) (name endpoint : String) (protocol : SubscriptionProtocol)
    (rawMessageDelivery : Option Bool) : Subscription :=
  { name := name
    topicArn := t.topicArn
    endpoint := endpoint
    protocol := protocol
    rawMessageDelivery := rawMessageDelivery }

/-- The startsWith test of the source, embedded as the prefix test on
the character sequences of the two strings. -/
def strStartsWith (s pre : String) : Bool :=
  pre.data.isPrefixOf s.data

/-- Embedding of `TopicBase.subscribeUrl`: rejects URLs starting with
neither scheme, then picks Https exactly when the URL starts with
the string https followed by a colon. -/
def subscribeUrl (t : TopicBaseState) (name url : String) (rawMessageDelivery : Option Bool) :
    Except String Subscription :=
  if !strStartsWith url "http://" && !strStartsWith url "https://" then
    .error "URL must start with either http:// or https://"
  else
    let protocol := if strStartsWith url "https:" then SubscriptionProtocol.https
      else SubscriptionProtocol.http
    .ok { name := name
          topicArn := t.topicArn
          endpoint := url
          protocol := protocol
          rawMessageDelivery := rawMessageDelivery }

/-- The state of an SQS queue as `subscribeQueue` sees it: its id and
ARN, its construct children (holding subscriptions keyed by child id),
and its resource-policy statements. -/
structure QueueState where
  nodeId : String
  queueArn : String
  children : List (String × Subscription)
  policyStatements : List PolicyStatement
deriving DecidableEq, Repr

/-- Embedding of `TopicBase.subscribeQueue`: fails when a child named
after the topic already exists under the queue; otherwise creates the
subscription under the queue and appends the send-message statement to
the queue resource policy. -/
def subscribeQueue (t : TopicBaseState) (q : QueueState) (rawMessageDelivery : Option Bool) :
    Except String (QueueState × Subscription) :=
  let subscriptionName := t.nodeId ++ "Subscription"
  if q.children.any (fun c => c.1 = subscriptionName) then
    .error ("A subscription between the topic " ++ t.nodeId ++ " and the queue "
      ++ q.nodeId ++ " already exists")
  else
    let sub : Subscription :=
      { name := subscriptionName
        topicArn := t.topicArn
        endpoint := q.queueArn
        protocol := SubscriptionProtocol.sqs
        rawMessageDelivery := rawMessageDelivery }
    let statement := (((({} : PolicyStatement).addResource q.queueArn).addAction
      "sqs:SendMessage").addServicePrincipal
      "sns.amazonaws.com").setCondition "ArnEquals" "aws:SourceArn" t.topicArn
    .ok ({ q with
           children := q.children ++ [(subscriptionName, sub)]
           policyStatements := q.policyStatements ++ [statement] }, sub)

/-! ### Construct tree

Modelled from the spec: the cdk core construct tree is not among the
source files; the spec describes nodes with ids locally unique among
siblings and a `createChild` operation failing with `DuplicateIdError`
when the id already exists among the parent children. -/

/-- Modelled from the spec: a construct-tree node with its id and its
ordered children. -/
inductive TreeNode where
  | mk : String → List TreeNode → TreeNode

/-- The id of a tree node. -/
def TreeNode.id : TreeNode → String
  | .mk i _ => i

/-- The ordered children of a tree node. -/
def TreeNode.children : TreeNode → List TreeNode
  | .mk _ c => c

/-- Modelled from the spec: `createChild(parent, id)` fails with
`DuplicateIdError` when `id` already exists among the parent children,
otherwise appends a fresh child of that id. -/
def createChild (parent : TreeNode) (childId : String) : Except String TreeNode :=
  if parent.children.any (fun c => c.id = childId) then
    .error "DuplicateIdError"
  else
    .ok (.mk parent.id (parent.children ++ [.mk childId []]))

/-! ### Permission-statement merging (pipeline-actions path)

Modelled from the spec: the merge step of the policy-attachment path is
not among the source files (only its test is); the spec requires that
statements with identical effect, action set and condition be merged by
resource-list union rather than duplicated. -/

/-- The resolved JSON shape of a permission statement, as the pipeline
test observes it: effect, action list, resource list, and condition
entries as operator, key, value triples. -/
structure StatementJson where
  effect : String
  actions : List String
  resources : List String
  condition : List (String × String × String)
deriving DecidableEq, Repr

/-- Two statements agree on the merge key: effect, action set and
condition. -/
def sameKey (a b : StatementJson) : Prop :=
  a.effect = b.effect ∧ a.actions = b.actions ∧ a.condition = b.condition

/-- Modelled from the spec: attaching a permission statement merges it
by resource-list union into the first existing statement with identical
effect, action set and condition, and appends it when none matches. -/
def attachStatement : List StatementJson → StatementJson → List StatementJson
  | [], n => [n]
  | s :: rest, n =>
    if s.effect = n.effect ∧ s.actions = n.actions ∧ s.condition = n.condition then
      { s with
        resources := s.resources ++ n.resources.filter (fun r => !s.resources.contains r) } :: rest
    else
      s :: attachStatement rest n

/-- Attaching a sequence of permission statements in order. -/
def attachStatements (acc : List StatementJson) (stmts : List StatementJson) :
    List StatementJson :=
  stmts.foldl attachStatement acc

/-! ### Deterministic generated names and synthesis

Modelled from the spec: `uniqueId` of the cdk core is not among the
source files; the spec requires a deterministic, collision-resistant
identifier derived by hashing the full root-to-node path, the same path
always yielding the same id. -/

/-- Modelled from the spec: a deterministic hash of the full path,
folded over the path components and their characters. -/
def pathHash (path : List String) : Nat :=
  path.foldl
    (fun h comp => comp.data.foldl
      (fun h c => (h * 33 + c.toNat) % 4294967296) ((h * 37 + 1) % 4294967296))
    5381

/-- Modelled from the spec: the generated fallback identifier is a pure
function of the node path: the joined path plus its hash. -/
def uniqueId (path : List String) : String :=
  String.join path ++ toString (pathHash path)

/-- Embedding of the policy-name fallback of the scaling-policy
resource: the supplied name, or the path-derived `uniqueId` when the
props supply none (the or of the source also replaces the empty
string, which is falsy). -/
def policyNameFallback (policyNameProp : Option String) (path : List String) : String :=
  match policyNameProp with
  | some n => if n = "" then uniqueId path else n
  | none => uniqueId path

/-- String rendering of an optional integer property. -/
def renderOptInt : Option Int → String
  | none => "absent"
  | some n => toString n

/-- String rendering of one step adjustment. -/
def renderStepAdjustment (a : StepAdjustmentProperty) : String :=
  "lower=" ++ renderOptInt a.metricIntervalLowerBound
    ++ ",upper=" ++ renderOptInt a.metricIntervalUpperBound
    ++ ",adjustment=" ++ toString a.scalingAdjustment

/-- Synthesis of the scaling-policy resource of a `StepScalingAction`
as a byte string: the policy name with its fallback, the fixed policy
type, and the resolved step-adjustments Token. -/
def synthesizeScalingPolicy (policyNameProp : Option String) (path : List String)
    (s : StepScalingActionState) : String :=
  "PolicyName=" ++ policyNameFallback policyNameProp path
    ++ ";PolicyType=StepScaling;StepAdjustments="
    ++ String.intercalate "|" ((resolveStepAdjustments s).map renderStepAdjustment)

/-! ### PublishToTopic (Step Functions task) -/

/-- A Step Functions task input: its rendered value. -/
structure TaskInput where
  value : String
deriving DecidableEq, Repr

/-- Embedding of `PublishToTopicProps`. -/
structure PublishToTopicProps where
  message : TaskInput
  messagePerSubscriptionType : Option Bool := none
  subject : Option String := none
deriving DecidableEq, Repr

/-- The rendered task parameters of the publish task. -/
structure PublishParameters where
  TopicArn : String
  Message : String
  MessageStructure : Option String
  Subject : Option String
deriving DecidableEq, Repr

/-- Embedding of `StepFunctionsTaskConfig` as returned by the publish
task. -/
structure StepFunctionsTaskConfig where
  resourceArn : String
  policyStatements : List PolicyStatement
  parameters : PublishParameters
deriving DecidableEq, Repr

/-- Embedding of `PublishToTopic.bind`: the fixed publish resource ARN,
one statement granting publish on the topic ARN, and the parameters;
the ternary of the source makes MessageStructure json only when the
per-subscription flag is set true (undefined and false are both
falsy). -/
def PublishToTopic.bind (topic : TopicBaseState) (props : PublishToTopicProps) :
    StepFunctionsTaskConfig :=
  { resourceArn := "arn:aws:states:::sns:publish"
    policyStatements :=
      [(({} : PolicyStatement).addAction "sns:Publish").addResource topic.topicArn]
    parameters :=
      { TopicArn := topic.topicArn
        Message := props.message.value
        MessageStructure :=
          if props.messagePerSubscriptionType = some true then some "json" else none
        Subject := props.subject } }

end AwsCdk

namespace AwsCdk

/-- Computation rule for the id of a built tree node. -/
theorem TreeNode.id_mk (i : String) (c : List TreeNode) : (TreeNode.mk i c).id = i := rfl

/-- Computation rule for the children of a built tree node. -/
theorem TreeNode.children_mk (i : String) (c : List TreeNode) :
    (TreeNode.mk i c).children = c := rfl

/-- C1: `addAdjustment` fails with the invalid-tier error exactly when both
bounds are unset; with at least one bound set it succeeds and appends the
entry, and a sequence of valid calls resolves to the entries in call order
with no ordering or overlap validation. -/
theorem addAdjustment_invalid_tier_and_call_order :
    (∀ (s : StepScalingActionState) (t : AdjustmentTier),
      t.lowerBound = none → t.upperBound = none →
      addAdjustment s t = .error "At least one of lowerBound or upperBound is required") ∧
    (∀ (s : StepScalingActionState) (t : AdjustmentTier),
      (t.lowerBound ≠ none ∨ t.upperBound ≠ none) →
      addAdjustment s t = .ok { s with adjustments := s.adjustments ++ [tierToStep t] }) ∧
    (∀ (s : StepScalingActionState) (ts : List AdjustmentTier),
      (∀ t ∈ ts, t.lowerBound ≠ none ∨ t.upperBound ≠ none) →
      addAdjustments s ts = .ok { s with adjustments := s.adjustments ++ ts.map tierToStep }) := by
  refine ⟨?_, ?_, ?_⟩
  · intro s t hl hu
    simp [addAdjustment, hl, hu]
  · intro s t h
    have : ¬ (t.lowerBound = none ∧ t.upperBound = none) := by tauto
    simp [addAdjustment, this, tierToStep]
  · intro s ts
    induction ts generalizing s with
    | nil => intro _; simp [addAdjustments]
    | cons t ts ih =>
      intro h
      have ht := h t (by simp)
      have : ¬ (t.lowerBound = none ∧ t.upperBound = none) := by tauto
      simp only [addAdjustments, addAdjustment, this, if_false, bind, Except.bind]
      rw [ih _ (fun x hx => h x (by simp [hx]))]
      simp [tierToStep]

/-- Witness for C1: a tier with both bounds unset fails; tiers with only an
upper bound 10 and only a lower bound 10 are both accepted, resolved in
call order. -/
theorem addAdjustment_invalid_tier_and_call_order_witness :
    addAdjustment ⟨[]⟩ ⟨1, none, none⟩ =
      .error "At least one of lowerBound or upperBound is required" ∧
    addAdjustments ⟨[]⟩ [⟨1, none, some 10⟩, ⟨2, some 10, none⟩] =
      .ok ⟨[⟨none, some 10, 1⟩, ⟨some 10, none, 2⟩]⟩ :=
  ⟨addAdjustment_invalid_tier_and_call_order.1 ⟨[]⟩ ⟨1, none, none⟩ rfl rfl,
   by
    have h := addAdjustment_invalid_tier_and_call_order.2.2 ⟨[]⟩
      [⟨1, none, some 10⟩, ⟨2, some 10, none⟩] (by decide)
    simpa [tierToStep] using h⟩

/-- C2: the three action-ARN arrays of an alarm start absent (`none`, not
empty) and become defined on the first add call, so a never-configured
alarm resolves to an omitted action-list field, distinguishable from an
explicitly emptied one. -/
theorem alarm_action_arrays_start_absent :
    (∀ ref : AlarmRef,
      (Alarm.construct ref).alarmActionArns = none ∧
      (Alarm.construct ref).insufficientDataActionArns = none ∧
      (Alarm.construct ref).okActionArns = none) ∧
    (∀ ref : AlarmRef, resolveAlarmActions (Alarm.construct ref) = none) ∧
    (∀ (s : AlarmState) (acts : List IAlarmAction),
      (addAlarmAction s acts).alarmActionArns ≠ none) ∧
    (∀ (s : AlarmState) (acts : List IAlarmAction),
      (addInsufficientDataAction s acts).insufficientDataActionArns ≠ none) ∧
    (∀ (s : AlarmState) (acts : List IAlarmAction),
      (addOkAction s acts).okActionArns ≠ none) ∧
    (∀ ref : AlarmRef,
      resolveAlarmActions (addAlarmAction (Alarm.construct ref) []) = some []) := by
  refine ⟨?_, ?_, ?_, ?_, ?_, ?_⟩ <;>
    simp [Alarm.construct, addAlarmAction, addInsufficientDataAction, addOkAction,
      resolveAlarmActions, alarmActionsToken, Token.resolve]

/-- C3: each `addAlarmAction` call appends one bound ARN per supplied
action, and the resolved alarm-actions list holds the bound ARNs exactly
in call order: adding `X` then `Y` resolves to their two ARNs in that
order. -/
theorem addAlarmAction_appends_in_call_order :
    (∀ (s : AlarmState) (acts : List IAlarmAction),
      resolveAlarmActions (addAlarmAction s acts) =
        some (s.alarmActionArns.getD [] ++
          acts.map (fun a => (a.bind s.ref s.ref).alarmActionArn))) ∧
    (∀ (ref : AlarmRef) (X Y : IAlarmAction),
      resolveAlarmActions (addAlarmAction (addAlarmAction (Alarm.construct ref) [X]) [Y]) =
        some [(X.bind ref ref).alarmActionArn, (Y.bind ref ref).alarmActionArn]) := by
  constructor <;>
    simp [Alarm.construct, addAlarmAction, resolveAlarmActions, alarmActionsToken, Token.resolve]

/-- C4: on a live topic (autoCreatePolicy set) the first
`addToResourcePolicy` call creates the policy resource holding the
statement and later calls append to its document; on an imported topic
(autoCreatePolicy unset, no policy) every call is a silent no-op, so no
policy sub-resource is synthesized. -/
theorem addToResourcePolicy_live_creates_imported_noop :
    (∀ (s : TopicBaseState) (st : PolicyStatement),
      s.autoCreatePolicy = true → s.policy = none →
      addToResourcePolicy s st = { s with policy := some [st] }) ∧
    (∀ (s : TopicBaseState) (doc : List PolicyStatement) (st : PolicyStatement),
      s.policy = some doc →
      addToResourcePolicy s st = { s with policy := some (doc ++ [st]) }) ∧
    (∀ (s : TopicBaseState) (st : PolicyStatement),
      s.autoCreatePolicy = false → s.policy = none →
      addToResourcePolicy s st = s ∧
      topicPolicyResources (addToResourcePolicy s st) = []) := by
  refine ⟨?_, ?_, ?_⟩
  · intro s st hauto hp
    simp [addToResourcePolicy, hp, hauto]
  · intro s doc st hp
    simp [addToResourcePolicy, hp]
  · intro s st hauto hp
    refine ⟨?_, ?_⟩ <;> simp [addToResourcePolicy, topicPolicyResources, hp, hauto]

/-- Witness for C4: a live topic gains a policy resource holding the
attached statement; the same call on an imported topic leaves the state
unchanged with no policy sub-resource. -/
theorem addToResourcePolicy_live_creates_imported_noop_witness :
    addToResourcePolicy ⟨"arnT", "MyTopic", "MyTopic", true, none⟩ {} =
      ⟨"arnT", "MyTopic", "MyTopic", true, some [{}]⟩ ∧
    addToResourcePolicy ⟨"arnT", "MyTopic", "MyTopic", false, none⟩ {} =
      ⟨"arnT", "MyTopic", "MyTopic", false, none⟩ :=
  ⟨addToResourcePolicy_live_creates_imported_noop.1
      ⟨"arnT", "MyTopic", "MyTopic", true, none⟩ {} rfl rfl,
   (addToResourcePolicy_live_creates_imported_noop.2.2
      ⟨"arnT", "MyTopic", "MyTopic", false, none⟩ {} rfl rfl).1⟩

/-- C5: creating a child whose id already exists among the parent
children fails with DuplicateIdError and leaves the first-created
sibling in place; in particular subscribing the same queue to the same
topic twice fails because the subscription child id already exists
under the queue, with the first subscription untouched. -/
theorem createChild_duplicate_id_fails :
    (∀ (p : TreeNode) (i : String), (∃ c ∈ p.children, c.id = i) →
      createChild p i = .error "DuplicateIdError") ∧
    (∀ (p p1 : TreeNode) (i : String), createChild p i = .ok p1 →
      createChild p1 i = .error "DuplicateIdError" ∧
      TreeNode.mk i [] ∈ p1.children ∧ ∀ c ∈ p.children, c ∈ p1.children) ∧
    (∀ (t : TopicBaseState) (q q1 : QueueState) (raw raw2 : Option Bool) (sub : Subscription),
      subscribeQueue t q raw = .ok (q1, sub) →
      subscribeQueue t q1 raw2 = .error ("A subscription between the topic " ++ t.nodeId
        ++ " and the queue " ++ q.nodeId ++ " already exists") ∧
      (t.nodeId ++ "Subscription", sub) ∈ q1.children) := by
  refine ⟨?_, ?_, ?_⟩
  · intro p i h
    obtain ⟨c, hc, hid⟩ := h
    have hany : p.children.any (fun c => c.id = i) = true := by
      simp only [List.any_eq_true, decide_eq_true_eq]
      exact ⟨c, hc, hid⟩
    simp [createChild, hany]
  · intro p p1 i h
    by_cases hany : p.children.any (fun c => c.id = i) = true
    · simp [createChild, hany] at h
    · simp only [createChild, hany, Bool.false_eq_true, if_false, Except.ok.injEq] at h
      subst h
      refine ⟨?_, ?_, ?_⟩
      · have h2 : (TreeNode.mk p.id (p.children ++ [TreeNode.mk i []])).children.any
            (fun c => c.id = i) = true := by
          simp [TreeNode.children_mk, TreeNode.id_mk]
        simp [createChild, h2]
      · simp [TreeNode.children_mk]
      · intro c hc
        simp [TreeNode.children_mk, hc]
  · intro t q q1 raw raw2 sub h
    by_cases hany : q.children.any (fun c => c.1 = t.nodeId ++ "Subscription") = true
    · simp [subscribeQueue, hany] at h
    · simp only [subscribeQueue, hany, Bool.false_eq_true, if_false, Except.ok.injEq,
        Prod.mk.injEq] at h
      obtain ⟨hq1, hsub⟩ := h
      subst hq1
      subst hsub
      constructor
      · have h2 : (q.children ++ [(t.nodeId ++ "Subscription",
            subscribe t (t.nodeId ++ "Subscription") q.queueArn .sqs raw)]).any
            (fun c => c.1 = t.nodeId ++ "Subscription") = true := by
          simp
        simp [subscribeQueue, subscribe, h2]
      · simp [subscribe]

/-- Witness for C5: re-creating the child id Child under a parent that
already holds it fails, and subscribing a queue that already holds the
topic subscription child fails with the duplicate-subscription error. -/
theorem createChild_duplicate_id_fails_witness :
    createChild (TreeNode.mk "Root" [TreeNode.mk "Child" []]) "Child" =
      .error "DuplicateIdError" ∧
    subscribeQueue ⟨"arnT", "MyTopic", "MyTopic", true, none⟩
      ⟨"MyQueue", "arnQ",
        [("MyTopicSubscription", ⟨"MyTopicSubscription", "arnT", "arnQ", .sqs, none⟩)],
        [⟨"Allow", ["sqs:SendMessage"], ["arnQ"], ["sns.amazonaws.com"],
          [("ArnEquals", "aws:SourceArn", "arnT")]⟩]⟩ none =
      .error "A subscription between the topic MyTopic and the queue MyQueue already exists" :=
  ⟨(createChild_duplicate_id_fails.2.1 (TreeNode.mk "Root" [])
      (TreeNode.mk "Root" [TreeNode.mk "Child" []]) "Child" rfl).1,
   (createChild_duplicate_id_fails.2.2 ⟨"arnT", "MyTopic", "MyTopic", true, none⟩
      ⟨"MyQueue", "arnQ", [], []⟩
      ⟨"MyQueue", "arnQ",
        [("MyTopicSubscription", ⟨"MyTopicSubscription", "arnT", "arnQ", .sqs, none⟩)],
        [⟨"Allow", ["sqs:SendMessage"], ["arnQ"], ["sns.amazonaws.com"],
          [("ArnEquals", "aws:SourceArn", "arnT")]⟩]⟩ none none
      ⟨"MyTopicSubscription", "arnT", "arnQ", .sqs, none⟩ rfl).1⟩

/-- C9: `subscribeUrl` throws for every URL starting with neither
scheme; an accepted URL yields a subscription with the given name, the
URL as endpoint, and protocol Https exactly when the URL starts with
the https scheme prefix, Http otherwise. -/
theorem subscribeUrl_scheme_check :
    (∀ (t : TopicBaseState) (name url : String) (raw : Option Bool),
      strStartsWith url "http://" = false → strStartsWith url "https://" = false →
      subscribeUrl t name url raw = .error "URL must start with either http:// or https://") ∧
    (∀ (t : TopicBaseState) (name url : String) (raw : Option Bool),
      strStartsWith url "http://" = true ∨ strStartsWith url "https://" = true →
      subscribeUrl t name url raw = .ok
        { name := name
          topicArn := t.topicArn
          endpoint := url
          protocol := if strStartsWith url "https:" then .https else .http
          rawMessageDelivery := raw }) ∧
    (∀ (t : TopicBaseState) (name url : String) (raw : Option Bool) (sub : Subscription),
      subscribeUrl t name url raw = .ok sub →
      (sub.protocol = .https ↔ strStartsWith url "https:" = true)) := by
  refine ⟨?_, ?_, ?_⟩
  · intro t name url raw h1 h2
    simp [subscribeUrl, h1, h2]
  · intro t name url raw h
    rcases h with h | h <;> simp [subscribeUrl, h]
  · intro t name url raw sub h
    by_cases hrej : (!strStartsWith url "http://" && !strStartsWith url "https://") = true
    · simp [subscribeUrl, hrej] at h
    · simp only [subscribeUrl, hrej, Bool.false_eq_true, if_false, Except.ok.injEq] at h
      subst h
      by_cases hs : strStartsWith url "https:" = true <;> simp [hs]

/-- Witness for C9: an ftp URL is rejected, an https URL selects Https,
a plain http URL selects Http. -/
theorem subscribeUrl_scheme_check_witness :
    subscribeUrl ⟨"arnT", "MyTopic", "MyTopic", true, none⟩ "Sub" "ftp://example.com" none =
      .error "URL must start with either http:// or https://" ∧
    subscribeUrl ⟨"arnT", "MyTopic", "MyTopic", true, none⟩ "Sub" "https://example.com" none =
      .ok ⟨"Sub", "arnT", "https://example.com", .https, none⟩ ∧
    subscribeUrl ⟨"arnT", "MyTopic", "MyTopic", true, none⟩ "Sub" "http://example.com" none =
      .ok ⟨"Sub", "arnT", "http://example.com", .http, none⟩ :=
  ⟨subscribeUrl_scheme_check.1 ⟨"arnT", "MyTopic", "MyTopic", true, none⟩ "Sub"
      "ftp://example.com" none (by decide) (by decide),
   (subscribeUrl_scheme_check.2.1 ⟨"arnT", "MyTopic", "MyTopic", true, none⟩ "Sub"
      "https://example.com" none (Or.inr (by decide))).trans rfl,
   (subscribeUrl_scheme_check.2.1 ⟨"arnT", "MyTopic", "MyTopic", true, none⟩ "Sub"
      "http://example.com" none (Or.inl (by decide))).trans rfl⟩

/-- C6: attaching a permission statement whose effect, action set and
condition match an existing one merges by resource-list union instead
of duplicating: two equal-key statements attached to an empty list
yield the single union statement, a matching attach never grows the
statement count, and a non-matching attach appends. -/
theorem statement_merge_by_resource_union :
    (∀ a b : StatementJson, sameKey a b →
      attachStatement (attachStatement [] a) b =
        [{ a with
           resources := a.resources ++ b.resources.filter (fun r => !a.resources.contains r) }]) ∧
    (∀ (l : List StatementJson) (n : StatementJson),
      (∃ s ∈ l, sameKey s n) → (attachStatement l n).length = l.length) ∧
    (∀ (l : List StatementJson) (n : StatementJson),
      (∀ s ∈ l, ¬ sameKey s n) → attachStatement l n = l ++ [n]) := by
  refine ⟨?_, ?_, ?_⟩
  · intro a b h
    obtain ⟨h1, h2, h3⟩ := h
    simp [attachStatement, h1, h2, h3]
  · intro l n
    induction l with
    | nil => rintro ⟨s, hs, _⟩; cases hs
    | cons s rest ih =>
      rintro ⟨s0, hs0, hkey⟩
      by_cases hmatch : s.effect = n.effect ∧ s.actions = n.actions ∧ s.condition = n.condition
      · simp [attachStatement, hmatch]
      · rcases List.mem_cons.mp hs0 with h | h
        · subst h
          exact absurd hkey hmatch
        · simpa [attachStatement, hmatch] using ih ⟨s0, h, hkey⟩
  · intro l n
    induction l with
    | nil => intro _; rfl
    | cons s rest ih =>
      intro h
      have hmatch : ¬ (s.effect = n.effect ∧ s.actions = n.actions ∧ s.condition = n.condition) :=
        h s (by simp)
      simp only [attachStatement, hmatch, if_false, List.cons_append, List.cons.injEq, true_and]
      exact ih (fun x hx => h x (by simp [hx]))

/-- Witness for C6: the two ChangeSet statements of the pipeline test,
identical up to their stack resource, merge into one statement listing
both stack ARNs. -/
theorem statement_merge_by_resource_union_witness :
    attachStatement (attachStatement []
      ⟨"Allow",
        ["cloudformation:CreateChangeSet", "cloudformation:DeleteChangeSet",
         "cloudformation:DescribeChangeSet", "cloudformation:DescribeStacks"],
        ["arn:aws:cloudformation:us-east-1:111111111111:stack/StackA/*"],
        [("StringEqualsIfExists", "cloudformation:ChangeSetName", "MyChangeSet")]⟩)
      ⟨"Allow",
        ["cloudformation:CreateChangeSet", "cloudformation:DeleteChangeSet",
         "cloudformation:DescribeChangeSet", "cloudformation:DescribeStacks"],
        ["arn:aws:cloudformation:us-east-1:111111111111:stack/StackB/*"],
        [("StringEqualsIfExists", "cloudformation:ChangeSetName", "MyChangeSet")]⟩ =
      [⟨"Allow",
        ["cloudformation:CreateChangeSet", "cloudformation:DeleteChangeSet",
         "cloudformation:DescribeChangeSet", "cloudformation:DescribeStacks"],
        ["arn:aws:cloudformation:us-east-1:111111111111:stack/StackA/*",
         "arn:aws:cloudformation:us-east-1:111111111111:stack/StackB/*"],
        [("StringEqualsIfExists", "cloudformation:ChangeSetName", "MyChangeSet")]⟩] :=
  (statement_merge_by_resource_union.1
    ⟨"Allow",
      ["cloudformation:CreateChangeSet", "cloudformation:DeleteChangeSet",
       "cloudformation:DescribeChangeSet", "cloudformation:DescribeStacks"],
      ["arn:aws:cloudformation:us-east-1:111111111111:stack/StackA/*"],
      [("StringEqualsIfExists", "cloudformation:ChangeSetName", "MyChangeSet")]⟩
    ⟨"Allow",
      ["cloudformation:CreateChangeSet", "cloudformation:DeleteChangeSet",
       "cloudformation:DescribeChangeSet", "cloudformation:DescribeStacks"],
      ["arn:aws:cloudformation:us-east-1:111111111111:stack/StackB/*"],
      [("StringEqualsIfExists", "cloudformation:ChangeSetName", "MyChangeSet")]⟩
    ⟨rfl, rfl, rfl⟩).trans (by decide)

/-- C7: the Lazy Tokens of the sources resolve to structurally equal
values whenever the captured collection is unchanged between the two
resolutions, and a Constant Token resolves to the same value every
time. -/
theorem token_resolution_idempotent :
    (∀ s1 s2 : StepScalingActionState, s1.adjustments = s2.adjustments →
      stepAdjustmentsToken.resolve s1 = stepAdjustmentsToken.resolve s2) ∧
    (∀ a1 a2 : AlarmState, a1.alarmActionArns = a2.alarmActionArns →
      alarmActionsToken.resolve a1 = alarmActionsToken.resolve a2) ∧
    (∀ a1 a2 : AlarmState, a1.insufficientDataActionArns = a2.insufficientDataActionArns →
      insufficientDataActionsToken.resolve a1 = insufficientDataActionsToken.resolve a2) ∧
    (∀ a1 a2 : AlarmState, a1.okActionArns = a2.okActionArns →
      okActionsToken.resolve a1 = okActionsToken.resolve a2) ∧
    (∀ (v : List StepAdjustmentProperty) (s1 s2 : StepScalingActionState),
      (Token.constant v).resolve s1 = v ∧
      (Token.constant v).resolve s2 = (Token.constant v).resolve s1) := by
  refine ⟨?_, ?_, ?_, ?_, ?_⟩
  · intro a b h
    simp [stepAdjustmentsToken, Token.resolve, h]
  · intro a b h
    simp [alarmActionsToken, Token.resolve, h]
  · intro a b h
    simp [insufficientDataActionsToken, Token.resolve, h]
  · intro a b h
    simp [okActionsToken, Token.resolve, h]
  · intro v s1 s2
    exact ⟨rfl, rfl⟩

/-- Witness for C7: resolving the step-adjustments Token twice on the
same captured collection gives the same value, and a Constant Token
returns its value. -/
theorem token_resolution_idempotent_witness :
    stepAdjustmentsToken.resolve ⟨[⟨none, some 10, 1⟩]⟩ =
      stepAdjustmentsToken.resolve ⟨[⟨none, some 10, 1⟩]⟩ ∧
    (Token.constant (σ := StepScalingActionState)
        ([⟨none, some 10, 1⟩] : List StepAdjustmentProperty)).resolve
      StepScalingActionState.init = [⟨none, some 10, 1⟩] :=
  ⟨token_resolution_idempotent.1 (⟨[⟨none, some 10, 1⟩]⟩ : StepScalingActionState)
      (⟨[⟨none, some 10, 1⟩]⟩ : StepScalingActionState) rfl,
   (token_resolution_idempotent.2.2.2.2 ([⟨none, some 10, 1⟩] : List StepAdjustmentProperty)
      StepScalingActionState.init StepScalingActionState.init).1⟩

/-- C8: synthesis is deterministic: equal inputs synthesize to the same
byte string, and the generated fallback identifier is a pure function
of the node path, the same path always yielding the same generated
name. -/
theorem synthesis_deterministic :
    (∀ p q : List String, p = q → uniqueId p = uniqueId q) ∧
    (∀ (n1 n2 : Option String) (p1 p2 : List String) (s1 s2 : StepScalingActionState),
      n1 = n2 → p1 = p2 → s1 = s2 →
      synthesizeScalingPolicy n1 p1 s1 = synthesizeScalingPolicy n2 p2 s2) ∧
    (∀ p : List String, policyNameFallback none p = uniqueId p) := by
  refine ⟨?_, ?_, ?_⟩
  · intro p q h
    rw [h]
  · intro n1 n2 p1 p2 s1 s2 hn hp hs
    rw [hn, hp, hs]
  · intro p
    rfl

/-- Witness for C8: a concrete path yields the same generated id across
two synthesis runs, and the omitted-name fallback is that id. -/
theorem synthesis_deterministic_witness :
    uniqueId ["Stack", "Scaling", "Resource"] = uniqueId ["Stack", "Scaling", "Resource"] ∧
    synthesizeScalingPolicy none ["Stack", "Scaling"] ⟨[]⟩ =
      synthesizeScalingPolicy none ["Stack", "Scaling"] ⟨[]⟩ :=
  ⟨synthesis_deterministic.1 ["Stack", "Scaling", "Resource"]
      ["Stack", "Scaling", "Resource"] rfl,
   synthesis_deterministic.2.1 none none ["Stack", "Scaling"] ["Stack", "Scaling"]
      ⟨[]⟩ ⟨[]⟩ rfl rfl rfl⟩

/-- C10: `PublishToTopic.bind` always returns the fixed publish
resource ARN, one policy statement granting publish on the topic ARN,
MessageStructure json exactly when the per-subscription flag is set
true and omitted otherwise, and the topic ARN as TopicArn parameter. -/
theorem publishToTopic_bind_spec :
    ∀ (topic : TopicBaseState) (props : PublishToTopicProps),
      (PublishToTopic.bind topic props).resourceArn = "arn:aws:states:::sns:publish" ∧
      (PublishToTopic.bind topic props).policyStatements =
        [{ effect := "Allow", actions := ["sns:Publish"], resources := [topic.topicArn],
           principals := [], conditions := [] }] ∧
      ((PublishToTopic.bind topic props).parameters.MessageStructure = some "json" ↔
        props.messagePerSubscriptionType = some true) ∧
      ((PublishToTopic.bind topic props).parameters.MessageStructure = none ↔
        props.messagePerSubscriptionType ≠ some true) ∧
      (PublishToTopic.bind topic props).parameters.TopicArn = topic.topicArn := by
  intro topic props
  refine ⟨rfl, ?_, ?_, ?_, rfl⟩
  · simp [PublishToTopic.bind, PolicyStatement.addAction, PolicyStatement.addResource]
  · by_cases h : props.messagePerSubscriptionType = some true <;>
      simp [PublishToTopic.bind, h]
  · by_cases h : props.messagePerSubscriptionType = some true <;>
      simp [PublishToTopic.bind, h]

/-- Witness for C10: with the flag set true the MessageStructure is
json; with the flag absent it is omitted; the resource ARN and topic
ARN are as stated. -/
theorem publishToTopic_bind_spec_witness :
    (PublishToTopic.bind ⟨"arnT", "MyTopic", "MyTopic", true, none⟩
      ⟨⟨"hello"⟩, some true, none⟩).parameters.MessageStructure = some "json" ∧
    (PublishToTopic.bind ⟨"arnT", "MyTopic", "MyTopic", true, none⟩
      ⟨⟨"hello"⟩, none, none⟩).parameters.MessageStructure = none ∧
    (PublishToTopic.bind ⟨"arnT", "MyTopic", "MyTopic", true, none⟩
      ⟨⟨"hello"⟩, none, none⟩).resourceArn = "arn:aws:states:::sns:publish" :=
  ⟨(publishToTopic_bind_spec ⟨"arnT", "MyTopic", "MyTopic", true, none⟩
      ⟨⟨"hello"⟩, some true, none⟩).2.2.1.mpr rfl,
   (publishToTopic_bind_spec ⟨"arnT", "MyTopic", "MyTopic", true, none⟩
      ⟨⟨"hello"⟩, none, none⟩).2.2.2.1.mpr (by decide),
   (publishToTopic_bind_spec ⟨"arnT", "MyTopic", "MyTopic", true, none⟩
      ⟨⟨"hello"⟩, none, none⟩).1⟩

end AwsCdk
